import Mathlib

/-!
Shallow embedding of `scipy/sparse/linalg/interface.py`: the `LinearOperator`
class (constructor with default synthesis of `rmatvec` and `matmat`, and
`__repr__`) and the `aslinearoperator` normalizer dispatching on the runtime
kind of its argument (LinearOperator, dense ndarray/matrix, sparse matrix,
duck-typed object, anything else).

Numeric entries are modelled as Gaussian integers (a complex scalar with
integer parts), so that the conjugate-transpose action is non-trivial.
Python exceptions are modelled as an error type returned through `Except`;
the exception classes and messages follow the source literally.
-/

namespace ScipyInterface

/-- A complex scalar with integer real and imaginary parts, modelling a numpy
numeric entry; complex so that conjugation is observable. -/
structure Scalar where
  re : Int
  im : Int
deriving DecidableEq

/-- Addition of scalars. -/
def Scalar.add (a b : Scalar) : Scalar :=
  ⟨a.re + b.re, a.im + b.im⟩

/-- Multiplication of scalars (complex multiplication). -/
def Scalar.mul (a b : Scalar) : Scalar :=
  ⟨a.re * b.re - a.im * b.im, a.re * b.im + a.im * b.re⟩

/-- Complex conjugation, as used by `A.conj()` in the source. -/
def Scalar.conj (a : Scalar) : Scalar :=
  ⟨a.re, - a.im⟩

/-- The zero scalar. -/
def Scalar.zero : Scalar :=
  ⟨0, 0⟩

/-- A dense vector. -/
abbrev Vec := List Scalar

/-- A dense 2-D matrix, as its list of rows. -/
abbrev Mtx := List (List Scalar)

/-- Inner product of two equal-length vectors (`numpy.dot` on vectors). -/
def dotList (xs ys : Vec) : Scalar :=
  (List.zipWith Scalar.mul xs ys).foldr Scalar.add Scalar.zero

/-- Matrix-vector product (`numpy.dot(A, v)` for 2-D `A` and 1-D `v`). -/
def dotMV (A : Mtx) (v : Vec) : Vec :=
  A.map (fun row => dotList row v)

/-- Transpose of a (rectangular) matrix; column `j` collects entry `j` of
each row (`A.transpose()` / `V.T` in the source). -/
def transposeM (A : Mtx) : Mtx :=
  (List.range (A.headD []).length).map (fun j => A.map (fun row => row.getD j Scalar.zero))

/-- Matrix-matrix product (`numpy.dot(A, V)` for 2-D arguments). -/
def dotMM (A B : Mtx) : Mtx :=
  A.map (fun row => (transposeM B).map (fun col => dotList row col))

/-- Entrywise conjugation of a matrix (`A.conj()`). -/
def conjM (A : Mtx) : Mtx :=
  A.map (List.map Scalar.conj)

/-- A vector laid out as a single-column matrix (`col.reshape(-1,1)` /
the column shape of each synthesized `matvec` result). -/
def colMat (v : Vec) : Mtx :=
  v.map (fun x => [x])

/-- Horizontal concatenation of matrices with equal row counts
(`numpy.hstack`). -/
def hstack : List Mtx → Mtx
  | [] => []
  | [M] => M
  | M :: N :: Ms => List.zipWith (fun r s => r ++ s) M (hstack (N :: Ms))

/-- Python exceptions raised by the source, by class and message. -/
inductive PyError where
  | valueError (msg : String)
  | notImplementedError (msg : String)
  | typeError (msg : String)
deriving DecidableEq

/-- Modelled from the spec: `isshape` is imported from
`scipy.sparse.sputils`, which is not among the provided sources.  The spec
defines the shape-validity predicate as: a sequence of exactly two
non-negative integers. -/
def isshape (x : List Int) : Bool :=
  x.length == 2 && x.all (fun d => decide (0 ≤ d))

/-- The `LinearOperator` value: a shape, the three action callables, and an
optional dtype tag.  `rmatvec` may fail (the default stand-in always does),
so its slot is `Except`-valued; the slot always holds a real function, as in
the source where `self.rmatvec` is assigned in both branches. -/
structure LinearOperator where
  shape : List Int
  matvec : Vec → Vec
  rmatvec : Vec → Except PyError Vec
  matmat : Mtx → Mtx
  dtype : Option String

/-- The synthesized `matmat` installed when none is supplied: matvec each
column of `V` (iterating the rows of `V.T`, i.e. the columns of `V`, left to
right), each result a column, and `hstack` the columns. -/
def synthMatmat (matvec : Vec → Vec) (V : Mtx) : Mtx :=
  hstack ((transposeM V).map (fun col => colMat (matvec col)))

/-- `LinearOperator.__init__`: validates the shape (raising
`ValueError('invalid shape')` before any field is set), stores `matvec`,
installs the failing `rmatvec` stand-in when none is given, installs the
column-wise synthesized `matmat` when none is given, and stores the dtype
only when one is given. -/
def LinearOperator.init (shape : List Int) (matvec : Vec → Vec)
    (rmatvec : Option (Vec → Except PyError Vec))
    (matmat : Option (Mtx → Mtx))
    (dtype : Option String) : Except PyError LinearOperator :=
  if isshape shape then
    Except.ok
      { shape := shape
        matvec := matvec
        rmatvec :=
          match rmatvec with
          | none => fun _ => Except.error (PyError.notImplementedError "rmatvec is not defined")
          | some f => f
        matmat :=
          match matmat with
          | none => synthMatmat matvec
          | some f => f
        dtype := dtype }
  else
    Except.error (PyError.valueError "invalid shape")

/-- `LinearOperator.__repr__`: the summary string, whose tail depends on
whether the dtype attribute is present. -/
def LinearOperator.reprStr (op : LinearOperator) : String :=
  let M := op.shape.getD 0 0
  let N := op.shape.getD 1 0
  let dt :=
    match op.dtype with
    | some d => "dtype=" ++ d
    | none => "unspecified dtype"
  "<" ++ toString M ++ "x" ++ toString N ++ " LinearOperator with " ++ dt ++ ">"

/-- A dense ndarray/matrix value of arbitrary rank, by nesting. -/
inductive NDData where
  | scalar (x : Scalar)
  | arr (xs : List NDData)

/-- Number of dimensions (`len(A.shape)`), read off the nesting depth along
the first entries (well-formed numpy arrays are rectangular). -/
def NDData.ndim : NDData → Nat
  | .scalar _ => 0
  | .arr [] => 1
  | .arr (x :: _) => 1 + x.ndim

/-- The scalar held by a rank-0 entry (well-formed input only). -/
def NDData.toScalar : NDData → Scalar
  | .scalar x => x
  | .arr _ => Scalar.zero

/-- The row held by a rank-1 entry (well-formed input only). -/
def NDData.toRow : NDData → Vec
  | .scalar x => [x]
  | .arr xs => xs.map NDData.toScalar

/-- `numpy.atleast_2d(asarray(A))` for rank ≤ 2: a rank-0 value becomes a
1x1 matrix, a rank-1 value a single row, a rank-2 value its rows. -/
def NDData.atleast2d : NDData → Mtx
  | .scalar x => [[x]]
  | .arr [] => [[]]
  | .arr (x :: xs) =>
    match x with
    | .scalar _ => (NDData.arr (x :: xs)).toRow :: []
    | .arr _ => (x :: xs).map NDData.toRow

/-- The numpy shape of a 2-D matrix, as `(rows, cols)`. -/
def shapeOfMtx (M : Mtx) : List Int :=
  [(M.length : Int), ((M.headD []).length : Int)]

/-- A dense ndarray/matrix value with its dtype tag. -/
structure DenseArray where
  data : NDData
  dtype : String

/-- A sparse matrix value: the attributes `aslinearoperator` delegates to. -/
structure SparseMatrix where
  shape : List Int
  matvec : Vec → Vec
  rmatvec : Vec → Except PyError Vec
  dot : Mtx → Mtx
  dtype : String

/-- A duck-typed object: each attribute the normalizer probes with
`hasattr` is optional.  `matmat?` is present in the model precisely because
the source never inspects it. -/
structure DuckObj where
  shape? : Option (List Int)
  matvec? : Option (Vec → Vec)
  rmatvec? : Option (Vec → Except PyError Vec)
  matmat? : Option (Mtx → Mtx)
  dtype? : Option String

/-- The universe of runtime values `aslinearoperator` can receive, one
constructor per branch of its isinstance/hasattr dispatch; `other` covers
every remaining kind (scalars, strings, ...). -/
inductive PyVal where
  | linop (op : LinearOperator)
  | dense (A : DenseArray)
  | sparse (S : SparseMatrix)
  | duck (D : DuckObj)
  | other (kind : String)

/-- `aslinearoperator`: first match wins.  A LinearOperator is returned
unchanged; a dense value is rank-checked then wrapped with all three actions
taken from the dense multiply; a sparse value delegates its own methods; a
duck-typed object with `shape` and `matvec` forwards those (plus `rmatvec`
and `dtype` when present, never `matmat`); anything else is
`TypeError('type not understood')`. -/
def aslinearoperator : PyVal → Except PyError LinearOperator
  | .linop op => Except.ok op
  | .dense A =>
    if 2 < A.data.ndim then
      Except.error (PyError.valueError "array must have rank <= 2")
    else
      LinearOperator.init (shapeOfMtx A.data.atleast2d)
        (fun v => dotMV A.data.atleast2d v)
        (some (fun v => Except.ok (dotMV (transposeM (conjM A.data.atleast2d)) v)))
        (some (fun V => dotMM A.data.atleast2d V))
        (some A.dtype)
  | .sparse S =>
    LinearOperator.init S.shape S.matvec (some S.rmatvec) (some S.dot) (some S.dtype)
  | .duck D =>
    match D.shape?, D.matvec? with
    | some s, some mv => LinearOperator.init s mv D.rmatvec? none D.dtype?
    | _, _ => Except.error (PyError.typeError "type not understood")
  | .other _ => Except.error (PyError.typeError "type not understood")

/-! ### Helper lemmas -/

/-- The shape read off an actual 2-D matrix always passes the shape check:
it is two non-negative integers. -/
theorem isshape_shapeOfMtx (M : Mtx) : isshape (shapeOfMtx M) = true := by
  simp [isshape, shapeOfMtx]

/-- Any list is the map of position lookups over the range of its length. -/
theorem listEqRangeMap {α : Type} (xs : List α) (d : α) :
    (List.range xs.length).map (fun i => xs.getD i d) = xs := by
  induction xs with
  | nil => rfl
  | cons x xs ih =>
    simp only [List.length_cons, List.range_succ_eq_map, List.map_cons, List.map_map]
    exact congrArg (x :: ·) ih

/-- Zipping two maps of the same list pointwise is a single map. -/
theorem zipWithMapSame {α β γ δ : Type} (f : β → γ → δ) (g₁ : α → β) (g₂ : α → γ)
    (l : List α) :
    List.zipWith f (l.map g₁) (l.map g₂) = l.map (fun a => f (g₁ a) (g₂ a)) := by
  induction l with
  | nil => rfl
  | cons x xs ih => simp [ih]

/-- A column matrix of a vector of length `m`, entry by entry. -/
theorem colMat_eq_rangeMap (w : Vec) (m : Nat) (hw : w.length = m) :
    colMat w = (List.range m).map (fun i => [w.getD i Scalar.zero]) := by
  subst hw
  calc colMat w = List.map (fun a => [a]) w := rfl
    _ = List.map (fun a => [a]) ((List.range w.length).map (fun i => w.getD i Scalar.zero)) := by
        rw [listEqRangeMap]
    _ = (List.range w.length).map (fun i => [w.getD i Scalar.zero]) := by
        rw [List.map_map]
        rfl

/-- `hstack` of the column matrices of equal-length vectors produces, row by
row, the entries of the vectors at that row position. -/
theorem hstack_colMat (m : Nat) (ws : List Vec) (hne : ws ≠ [])
    (hlen : ∀ w ∈ ws, w.length = m) :
    hstack (ws.map colMat)
      = (List.range m).map (fun i => ws.map (fun w => w.getD i Scalar.zero)) := by
  induction ws with
  | nil => exact absurd rfl hne
  | cons w ws ih =>
    have hw : w.length = m := hlen w (List.mem_cons_self w ws)
    cases ws with
    | nil =>
      rw [show hstack ([w].map colMat) = colMat w from rfl, colMat_eq_rangeMap w m hw]
      rfl
    | cons x rest =>
      have htail : ∀ u ∈ x :: rest, u.length = m := fun u hu =>
        hlen u (List.mem_cons_of_mem _ hu)
      have ihtail := ih (by simp) htail
      calc hstack ((w :: x :: rest).map colMat)
          = List.zipWith (fun r s => r ++ s) (colMat w)
              (hstack ((x :: rest).map colMat)) := rfl
        _ = List.zipWith (fun r s => r ++ s)
              ((List.range m).map (fun i => [w.getD i Scalar.zero]))
              ((List.range m).map
                (fun i => (x :: rest).map (fun u => u.getD i Scalar.zero))) := by
            rw [colMat_eq_rangeMap w m hw, ihtail]
        _ = (List.range m).map (fun i =>
              [w.getD i Scalar.zero] ++ (x :: rest).map (fun u => u.getD i Scalar.zero)) := by
            rw [zipWithMapSame]
        _ = (List.range m).map
              (fun i => (w :: x :: rest).map (fun u => u.getD i Scalar.zero)) := rfl

/-- Transposing the row-by-row layout of equal-length vectors recovers the
vectors (the row count must be positive for the layout to retain the vector
count). -/
theorem transposeM_rangeMap (ws : List Vec) (m : Nat) (hm : 0 < m)
    (hlen : ∀ w ∈ ws, w.length = m) :
    transposeM ((List.range m).map (fun i => ws.map (fun w => w.getD i Scalar.zero))) = ws := by
  have hhead : (((List.range m).map
      (fun i => ws.map (fun w => w.getD i Scalar.zero))).headD []).length = ws.length := by
    cases m with
    | zero => exact absurd hm (by simp)
    | succ k =>
      rw [List.range_succ_eq_map]
      simp
  simp only [transposeM]
  rw [hhead]
  have hcols : ∀ j ∈ List.range ws.length,
      ((List.range m).map (fun i => ws.map (fun w => w.getD i Scalar.zero))).map
        (fun row => row.getD j Scalar.zero) = ws.getD j [] := by
    intro j hj
    have hjlt : j < ws.length := List.mem_range.mp hj
    have hgd : ws.getD j [] = ws[j] := by
      rw [List.getD_eq_getElem?_getD, List.getElem?_eq_getElem hjlt]
      rfl
    have h2 : ∀ i, (ws.map (fun w => w.getD i Scalar.zero)).getD j Scalar.zero
        = (ws.getD j []).getD i Scalar.zero := by
      intro i
      rw [List.getD_eq_getElem?_getD, List.getElem?_map, List.getD_eq_getElem?_getD ws j []]
      cases ws[j]? with
      | none => rfl
      | some w => rfl
    calc ((List.range m).map (fun i => ws.map (fun w => w.getD i Scalar.zero))).map
          (fun row => row.getD j Scalar.zero)
        = (List.range m).map
            (fun i => (ws.map (fun w => w.getD i Scalar.zero)).getD j Scalar.zero) := by
          rw [List.map_map]
          rfl
      _ = (List.range m).map (fun i => (ws.getD j []).getD i Scalar.zero) := by
          exact List.map_congr_left (fun i _ => h2 i)
      _ = ws.getD j [] := by
          have hlenj : (ws.getD j []).length = m := by
            rw [hgd]
            exact hlen ws[j] (ws.getElem_mem hjlt)
          rw [← hlenj]
          exact listEqRangeMap (ws.getD j []) Scalar.zero
  calc (List.range ws.length).map
        (fun j => ((List.range m).map (fun i => ws.map (fun w => w.getD i Scalar.zero))).map
          (fun row => row.getD j Scalar.zero))
      = (List.range ws.length).map (fun j => ws.getD j []) := List.map_congr_left hcols
    _ = ws := listEqRangeMap ws []

/-- Transposing an `hstack` of column matrices of equal positive length
recovers the list of columns. -/
theorem transposeM_hstack_colMat (ws : List Vec) (m : Nat) (hm : 0 < m)
    (hlen : ∀ w ∈ ws, w.length = m) :
    transposeM (hstack (ws.map colMat)) = ws := by
  cases ws with
  | nil => rfl
  | cons w rest =>
    rw [hstack_colMat m (w :: rest) (by simp) hlen]
    exact transposeM_rangeMap (w :: rest) m hm hlen

/-! ### Claim theorems -/

/-- C4: a shape argument failing the shape-validity predicate makes
construction fail with the invalid-shape error, with no Operator (and hence
no field of one) ever produced. -/
theorem init_invalid_shape (shape : List Int) (matvec : Vec → Vec)
    (rmatvec : Option (Vec → Except PyError Vec)) (matmat : Option (Mtx → Mtx))
    (dtype : Option String) (hs : isshape shape = false) :
    LinearOperator.init shape matvec rmatvec matmat dtype =
      Except.error (PyError.valueError "invalid shape") := by
  simp [LinearOperator.init, hs]

/-- Witness for C4 at the concrete shape `[-1, 5]`. -/
theorem init_invalid_shape_witness :
    isshape [-1, 5] = false ∧
    LinearOperator.init [-1, 5] id none none none =
      Except.error (PyError.valueError "invalid shape") :=
  ⟨by decide, init_invalid_shape [-1, 5] id none none none (by decide)⟩

/-- C5: normalizing a value that is already a LinearOperator returns that
identical value, with no copy and no wrapping layer, so normalization is
idempotent. -/
theorem aslinearoperator_linop_identity (op : LinearOperator) :
    aslinearoperator (PyVal.linop op) = Except.ok op := rfl

/-- C6: normalizing a dense value of rank greater than two fails with the
rank error before any Operator is constructed. -/
theorem aslinearoperator_rank_gt_two (A : DenseArray) (h : 2 < A.data.ndim) :
    aslinearoperator (PyVal.dense A) =
      Except.error (PyError.valueError "array must have rank <= 2") := by
  simp [aslinearoperator, h]

/-- Witness for C6 at a concrete rank-3 array. -/
theorem aslinearoperator_rank_gt_two_witness :
    2 < (NDData.arr [NDData.arr [NDData.arr [NDData.scalar ⟨1, 0⟩]]]).ndim ∧
    aslinearoperator (PyVal.dense
        ⟨NDData.arr [NDData.arr [NDData.arr [NDData.scalar ⟨1, 0⟩]]], "float64"⟩) =
      Except.error (PyError.valueError "array must have rank <= 2") :=
  ⟨by decide,
   aslinearoperator_rank_gt_two
     ⟨NDData.arr [NDData.arr [NDData.arr [NDData.scalar ⟨1, 0⟩]]], "float64"⟩ (by decide)⟩

/-- C7: normalizing a value of an unrecognized kind, or a duck-typed object
missing the shape attribute or the matvec attribute, fails with
`TypeError('type not understood')`. -/
theorem aslinearoperator_type_not_understood (k : String) (D : DuckObj)
    (h : D.shape? = none ∨ D.matvec? = none) :
    aslinearoperator (PyVal.other k) = Except.error (PyError.typeError "type not understood") ∧
    aslinearoperator (PyVal.duck D) = Except.error (PyError.typeError "type not understood") := by
  refine ⟨rfl, ?_⟩
  obtain ⟨so, mo, ro, mmo, dto⟩ := D
  rcases h with h | h
  · cases h
    cases mo <;> rfl
  · cases h
    cases so <;> rfl

/-- Witness for C7: a string-like value and a duck object exposing matvec
but no shape. -/
theorem aslinearoperator_type_not_understood_witness :
    ((DuckObj.mk none (some id) none none none).shape? = none ∨
      (DuckObj.mk none (some id) none none none).matvec? = none) ∧
    (aslinearoperator (PyVal.other "str") =
        Except.error (PyError.typeError "type not understood") ∧
      aslinearoperator (PyVal.duck (DuckObj.mk none (some id) none none none)) =
        Except.error (PyError.typeError "type not understood")) :=
  ⟨Or.inl rfl,
   aslinearoperator_type_not_understood "str" (DuckObj.mk none (some id) none none none)
     (Or.inl rfl)⟩

/-- C3: constructing without an rmatvec succeeds (no error at construction)
and stores, in the rmatvec slot itself, a real function that on every input
fails with `NotImplementedError('rmatvec is not defined')`. -/
theorem rmatvec_default_unsupported (shape : List Int) (matvec : Vec → Vec)
    (matmat : Option (Mtx → Mtx)) (dtype : Option String)
    (hs : isshape shape = true) :
    ∃ op, LinearOperator.init shape matvec none matmat dtype = Except.ok op ∧
      op.rmatvec =
        (fun _ => Except.error (PyError.notImplementedError "rmatvec is not defined")) ∧
      ∀ v, op.rmatvec v =
        Except.error (PyError.notImplementedError "rmatvec is not defined") := by
  refine ⟨{ shape := shape
            matvec := matvec
            rmatvec := fun _ =>
              Except.error (PyError.notImplementedError "rmatvec is not defined")
            matmat :=
              match matmat with
              | none => synthMatmat matvec
              | some f => f
            dtype := dtype }, ?_, rfl, fun _ => rfl⟩
  simp [LinearOperator.init, hs]

/-- Witness for C3 at shape `[2, 2]`. -/
theorem rmatvec_default_unsupported_witness :
    isshape [2, 2] = true ∧
    ∃ op, LinearOperator.init [2, 2] id none none none = Except.ok op ∧
      op.rmatvec =
        (fun _ => Except.error (PyError.notImplementedError "rmatvec is not defined")) ∧
      ∀ v, op.rmatvec v =
        Except.error (PyError.notImplementedError "rmatvec is not defined") :=
  ⟨by decide, rmatvec_default_unsupported [2, 2] id none none (by decide)⟩

/-- C9: the repr string is `<MxN LinearOperator with dtype=D>` when a dtype
was supplied and `<MxN LinearOperator with unspecified dtype>` otherwise,
and when the dtype was omitted the dtype attribute is itself unset. -/
theorem repr_format (M N : Int) (matvec : Vec → Vec)
    (rmatvec : Option (Vec → Except PyError Vec)) (matmat : Option (Mtx → Mtx))
    (dtype : Option String) (hs : isshape [M, N] = true) :
    ∃ op, LinearOperator.init [M, N] matvec rmatvec matmat dtype = Except.ok op ∧
      (∀ d, dtype = some d →
        op.reprStr =
          "<" ++ toString M ++ "x" ++ toString N ++ " LinearOperator with dtype=" ++ d ++ ">") ∧
      (dtype = none →
        op.reprStr =
          "<" ++ toString M ++ "x" ++ toString N ++ " LinearOperator with unspecified dtype>") ∧
      (dtype = none → op.dtype = none) := by
  refine ⟨{ shape := [M, N]
            matvec := matvec
            rmatvec :=
              match rmatvec with
              | none => fun _ =>
                  Except.error (PyError.notImplementedError "rmatvec is not defined")
              | some f => f
            matmat :=
              match matmat with
              | none => synthMatmat matvec
              | some f => f
            dtype := dtype }, ?_, ?_, ?_, ?_⟩
  · simp [LinearOperator.init, hs]
  · intro d hd
    cases hd
    show "<" ++ toString M ++ "x" ++ toString N ++ " LinearOperator with " ++ ("dtype=" ++ d) ++ ">" = _
    simp only [String.append_assoc]
    rw [← String.append_assoc " LinearOperator with " "dtype=" (d ++ ">")]
    rfl
  · intro hd
    cases hd
    show "<" ++ toString M ++ "x" ++ toString N ++ " LinearOperator with " ++ "unspecified dtype" ++ ">" = _
    simp only [String.append_assoc]
    rfl
  · intro hd
    cases hd
    rfl

/-- Witness for C9 at shape `[2, 3]` with dtype `int32`. -/
theorem repr_format_witness :
    isshape [2, 3] = true ∧
    ∃ op, LinearOperator.init [2, 3] id none none (some "int32") = Except.ok op ∧
      (∀ d, some "int32" = some d →
        op.reprStr = "<2x3 LinearOperator with dtype=" ++ d ++ ">") ∧
      (some "int32" = none → op.reprStr = "<2x3 LinearOperator with unspecified dtype>") ∧
      (some "int32" = none → op.dtype = none) :=
  ⟨by decide, repr_format 2 3 id none none (some "int32") (by decide)⟩

/-- C10: a duck-typed object exposing shape and matvec attributes but whose
shape fails the validity predicate makes normalization fail with the
construction-time invalid-shape error, not the unsupported-type error. -/
theorem duck_shape_validated (D : DuckObj) (s : List Int) (mv : Vec → Vec)
    (hsh : D.shape? = some s) (hmv : D.matvec? = some mv) (hs : isshape s = false) :
    aslinearoperator (PyVal.duck D) = Except.error (PyError.valueError "invalid shape") := by
  obtain ⟨so, mo, ro, mmo, dto⟩ := D
  cases hsh
  cases hmv
  simp [aslinearoperator, LinearOperator.init, hs]

/-- Witness for C10: a duck object whose shape attribute has three
entries. -/
theorem duck_shape_validated_witness :
    ((DuckObj.mk (some [1, 2, 3]) (some id) none none none).shape? = some [1, 2, 3] ∧
      (DuckObj.mk (some [1, 2, 3]) (some id) none none none).matvec? = some id ∧
      isshape [1, 2, 3] = false) ∧
    aslinearoperator (PyVal.duck (DuckObj.mk (some [1, 2, 3]) (some id) none none none)) =
      Except.error (PyError.valueError "invalid shape") :=
  ⟨⟨rfl, rfl, by decide⟩,
   duck_shape_validated (DuckObj.mk (some [1, 2, 3]) (some id) none none none)
     [1, 2, 3] id rfl rfl (by decide)⟩

/-- C2: normalizing a dense value of rank at most two wraps it with all
three actions taken directly from the dense multiply — matvec is `A·v`,
rmatvec is `conj(A).T·v`, matmat is `A·V`, none synthesized — and with the
dtype copied from the array. -/
theorem aslinearoperator_dense_direct (A : DenseArray) (h : A.data.ndim ≤ 2) :
    ∃ op, aslinearoperator (PyVal.dense A) = Except.ok op ∧
      op.matvec = (fun v => dotMV A.data.atleast2d v) ∧
      (∀ v, op.rmatvec v = Except.ok (dotMV (transposeM (conjM A.data.atleast2d)) v)) ∧
      op.matmat = (fun V => dotMM A.data.atleast2d V) ∧
      op.dtype = some A.dtype := by
  have hrank : ¬ 2 < A.data.ndim := Nat.not_lt.mpr h
  refine ⟨{ shape := shapeOfMtx A.data.atleast2d
            matvec := fun v => dotMV A.data.atleast2d v
            rmatvec := fun v => Except.ok (dotMV (transposeM (conjM A.data.atleast2d)) v)
            matmat := fun V => dotMM A.data.atleast2d V
            dtype := some A.dtype }, ?_, rfl, fun _ => rfl, rfl, rfl⟩
  simp [aslinearoperator, hrank, LinearOperator.init, isshape_shapeOfMtx]

/-- Witness for C2 at the concrete 2x2 array `[[2,0],[0,3]]` of dtype
`int32`. -/
theorem aslinearoperator_dense_direct_witness :
    (NDData.arr [NDData.arr [NDData.scalar ⟨2, 0⟩, NDData.scalar ⟨0, 0⟩],
        NDData.arr [NDData.scalar ⟨0, 0⟩, NDData.scalar ⟨3, 0⟩]]).ndim ≤ 2 ∧
    ∃ op, aslinearoperator (PyVal.dense
        ⟨NDData.arr [NDData.arr [NDData.scalar ⟨2, 0⟩, NDData.scalar ⟨0, 0⟩],
            NDData.arr [NDData.scalar ⟨0, 0⟩, NDData.scalar ⟨3, 0⟩]], "int32"⟩) =
        Except.ok op ∧
      op.matvec = (fun v => dotMV
        (NDData.arr [NDData.arr [NDData.scalar ⟨2, 0⟩, NDData.scalar ⟨0, 0⟩],
            NDData.arr [NDData.scalar ⟨0, 0⟩, NDData.scalar ⟨3, 0⟩]]).atleast2d v) ∧
      (∀ v, op.rmatvec v = Except.ok (dotMV (transposeM (conjM
        (NDData.arr [NDData.arr [NDData.scalar ⟨2, 0⟩, NDData.scalar ⟨0, 0⟩],
            NDData.arr [NDData.scalar ⟨0, 0⟩, NDData.scalar ⟨3, 0⟩]]).atleast2d)) v)) ∧
      op.matmat = (fun V => dotMM
        (NDData.arr [NDData.arr [NDData.scalar ⟨2, 0⟩, NDData.scalar ⟨0, 0⟩],
            NDData.arr [NDData.scalar ⟨0, 0⟩, NDData.scalar ⟨3, 0⟩]]).atleast2d V) ∧
      op.dtype = some "int32" :=
  ⟨by decide,
   aslinearoperator_dense_direct
     ⟨NDData.arr [NDData.arr [NDData.scalar ⟨2, 0⟩, NDData.scalar ⟨0, 0⟩],
         NDData.arr [NDData.scalar ⟨0, 0⟩, NDData.scalar ⟨3, 0⟩]], "int32"⟩ (by decide)⟩

/-- C8: normalizing a duck-typed object exposing shape and matvec uses the
object's matvec directly, always synthesizes matmat from it (the object's
own matmat attribute, even when present, is never consulted), takes rmatvec
from the object when present and the failing stand-in otherwise, and copies
the dtype attribute when present, leaving it unset otherwise. -/
theorem aslinearoperator_duck_branch (D : DuckObj) (s : List Int) (mv : Vec → Vec)
    (hsh : D.shape? = some s) (hmv : D.matvec? = some mv) (hs : isshape s = true) :
    ∃ op, aslinearoperator (PyVal.duck D) = Except.ok op ∧
      op.matvec = mv ∧
      op.matmat = synthMatmat mv ∧
      (∀ rm, D.rmatvec? = some rm → op.rmatvec = rm) ∧
      (D.rmatvec? = none →
        op.rmatvec =
          fun _ => Except.error (PyError.notImplementedError "rmatvec is not defined")) ∧
      op.dtype = D.dtype? := by
  obtain ⟨so, mo, ro, mmo, dto⟩ := D
  cases hsh
  cases hmv
  refine ⟨{ shape := s
            matvec := mv
            rmatvec :=
              match ro with
              | none => fun _ =>
                  Except.error (PyError.notImplementedError "rmatvec is not defined")
              | some f => f
            matmat := synthMatmat mv
            dtype := dto }, ?_, rfl, rfl, ?_, ?_, rfl⟩
  · simp [aslinearoperator, LinearOperator.init, hs]
  · intro rm hrm
    cases hrm
    rfl
  · intro hr
    cases hr
    rfl

/-- Witness for C8: a duck object exposing shape, matvec, rmatvec, dtype and
a decoy matmat attribute; the produced operator still synthesizes matmat. -/
theorem aslinearoperator_duck_branch_witness :
    ((DuckObj.mk (some [2, 2]) (some id) (some (fun v => Except.ok v))
        (some (fun _ => [])) (some "float64")).shape? = some [2, 2] ∧
      (DuckObj.mk (some [2, 2]) (some id) (some (fun v => Except.ok v))
        (some (fun _ => [])) (some "float64")).matvec? = some id ∧
      isshape [2, 2] = true) ∧
    ∃ op, aslinearoperator (PyVal.duck (DuckObj.mk (some [2, 2]) (some id)
        (some (fun v => Except.ok v)) (some (fun _ => [])) (some "float64"))) =
        Except.ok op ∧
      op.matvec = id ∧
      op.matmat = synthMatmat id ∧
      (∀ rm, (DuckObj.mk (some [2, 2]) (some id) (some (fun v => Except.ok v))
          (some (fun _ => [])) (some "float64")).rmatvec? = some rm → op.rmatvec = rm) ∧
      ((DuckObj.mk (some [2, 2]) (some id) (some (fun v => Except.ok v))
          (some (fun _ => [])) (some "float64")).rmatvec? = none →
        op.rmatvec =
          fun _ => Except.error (PyError.notImplementedError "rmatvec is not defined")) ∧
      op.dtype = (DuckObj.mk (some [2, 2]) (some id) (some (fun v => Except.ok v))
          (some (fun _ => [])) (some "float64")).dtype? :=
  ⟨⟨rfl, rfl, by decide⟩,
   aslinearoperator_duck_branch
     (DuckObj.mk (some [2, 2]) (some id) (some (fun v => Except.ok v))
       (some (fun _ => [])) (some "float64")) [2, 2] id rfl rfl (by decide)⟩

/-- C1: when no matmat is supplied, construction installs the synthesized
matmat: on any matrix `V` it equals the left-to-right hstack of the column
matrices of `matvec` applied to each column of `V`, and, column for column,
the output columns are exactly `matvec` of the input columns in order —
identical to calling matvec once per column.  (The positivity of the output
length `m` is an artifact of the row-list matrix representation, which
cannot retain the column count of a zero-row matrix.) -/
theorem matmat_default_columnwise (shape : List Int) (matvec : Vec → Vec)
    (rmatvec : Option (Vec → Except PyError Vec)) (dtype : Option String)
    (hs : isshape shape = true) (V : Mtx) (m : Nat) (hm : 0 < m)
    (hlen : ∀ c ∈ transposeM V, (matvec c).length = m) :
    ∃ op, LinearOperator.init shape matvec rmatvec none dtype = Except.ok op ∧
      op.matmat V = hstack ((transposeM V).map (fun col => colMat (matvec col))) ∧
      transposeM (op.matmat V) = (transposeM V).map matvec := by
  refine ⟨{ shape := shape
            matvec := matvec
            rmatvec :=
              match rmatvec with
              | none => fun _ =>
                  Except.error (PyError.notImplementedError "rmatvec is not defined")
              | some f => f
            matmat := synthMatmat matvec
            dtype := dtype }, ?_, rfl, ?_⟩
  · simp [LinearOperator.init, hs]
  · show transposeM (synthMatmat matvec V) = (transposeM V).map matvec
    have hws : (transposeM V).map (fun col => colMat (matvec col))
        = ((transposeM V).map matvec).map colMat := by
      rw [List.map_map]
      rfl
    rw [synthMatmat, hws]
    refine transposeM_hstack_colMat ((transposeM V).map matvec) m hm ?_
    intro w hw
    obtain ⟨c, hc, rfl⟩ := List.mem_map.mp hw
    exact hlen c hc

/-- Witness for C1: the diagonal action `diag(2,3)` applied to the identity
matrix, shape `[2, 2]`, output length 2. -/
theorem matmat_default_columnwise_witness :
    (isshape [2, 2] = true ∧ 0 < 2 ∧
      ∀ c ∈ transposeM [[⟨1, 0⟩, ⟨0, 0⟩], [⟨0, 0⟩, ⟨1, 0⟩]],
        ((fun v : Vec => [Scalar.mul ⟨2, 0⟩ (v.getD 0 Scalar.zero),
            Scalar.mul ⟨3, 0⟩ (v.getD 1 Scalar.zero)]) c).length = 2) ∧
    ∃ op, LinearOperator.init [2, 2]
        (fun v : Vec => [Scalar.mul ⟨2, 0⟩ (v.getD 0 Scalar.zero),
          Scalar.mul ⟨3, 0⟩ (v.getD 1 Scalar.zero)]) none none none = Except.ok op ∧
      op.matmat [[⟨1, 0⟩, ⟨0, 0⟩], [⟨0, 0⟩, ⟨1, 0⟩]]
        = hstack ((transposeM [[⟨1, 0⟩, ⟨0, 0⟩], [⟨0, 0⟩, ⟨1, 0⟩]]).map
            (fun col => colMat ((fun v : Vec => [Scalar.mul ⟨2, 0⟩ (v.getD 0 Scalar.zero),
              Scalar.mul ⟨3, 0⟩ (v.getD 1 Scalar.zero)]) col))) ∧
      transposeM (op.matmat [[⟨1, 0⟩, ⟨0, 0⟩], [⟨0, 0⟩, ⟨1, 0⟩]])
        = (transposeM [[⟨1, 0⟩, ⟨0, 0⟩], [⟨0, 0⟩, ⟨1, 0⟩]]).map
            (fun v : Vec => [Scalar.mul ⟨2, 0⟩ (v.getD 0 Scalar.zero),
              Scalar.mul ⟨3, 0⟩ (v.getD 1 Scalar.zero)]) :=
  ⟨⟨by decide, by decide, by decide⟩,
   matmat_default_columnwise [2, 2]
     (fun v : Vec => [Scalar.mul ⟨2, 0⟩ (v.getD 0 Scalar.zero),
       Scalar.mul ⟨3, 0⟩ (v.getD 1 Scalar.zero)]) none none (by decide)
     [[⟨1, 0⟩, ⟨0, 0⟩], [⟨0, 0⟩, ⟨1, 0⟩]] 2 (by decide) (by decide)⟩

end ScipyInterface
